import Mathlib

/-!
Verification of the layout_change repository (two Python batch scripts,
`zones_count.py` and `create_types.py`) against its natural-language
specification.  The scripts are shallowly embedded: pure helper functions
become Lean functions, the per-file accumulation loops become folds over
lists, JSON documents become structures whose optional fields are `Option`s,
numeric page/zone measurements are rationals (the scripts only ever add,
halve and divide them), and a file whose read/parse fails is modelled as a
`none` entry in the list of parse results.
-/

namespace LayoutChange

/-! ### `year_to_century` (zones_count.py lines 22-41, create_types.py lines 37-53;
the two copies are textually identical, so one embedding serves both). -/

/-- Python `str.strip()` on the character list of a string: drop whitespace
from both ends. -/
def pyStrip (l : List Char) : List Char :=
  ((l.dropWhile Char.isWhitespace).reverse.dropWhile Char.isWhitespace).reverse

/-- Value of a digit string, as Python `int` reads it. -/
def natOfDigits (l : List Char) : Nat :=
  l.foldl (fun a c => 10 * a + (c.toNat - 48)) 0

/-- `re.match(r"(\d+)", s)`: the leading run of decimal digits, `none`
when the string does not start with a digit. -/
def leadingDigits (l : List Char) : Option (List Char) :=
  match l.takeWhile Char.isDigit with
  | [] => none
  | ds => some ds

/-- zones_count.py lines 22-41 / create_types.py lines 37-53.  The raw
`start_year` value is taken as its Python `str()` form; `none` models an
absent field. -/
def year_to_century (year_raw : Option String) : Option Nat :=
  match year_raw with
  | none => none
  | some s =>
    match leadingDigits (pyStrip s.data) with
    | none => none
    | some ds =>
      let year := natOfDigits ds
      if year < 100 then some (year + 1) else some (year / 100 + 1)

/-- Statement helper for claim C2: does the raw string itself (before any
stripping) begin with a decimal digit? -/
def beginsWithDigit (s : String) : Bool :=
  match s.data with
  | [] => false
  | c :: _ => c.isDigit

end LayoutChange

namespace LayoutChange

/-! ### zones_count.py: data model and `process_json_file` (lines 54-142).

A zone's `lines` field is modelled as the list of its lines' `content`
strings (a line with no `content` key reads as `""` via `line.get`);
a zone with no `type` key matches none of the tracked type names, which a
fresh `type` string distinct from all of them also models. -/

/-- One zone of a page entry as zones_count.py reads it. -/
structure Zone where
  type : String
  lines : List String
deriving DecidableEq

/-- One page entry (`file_entry`): `file_entry.get("wh", [])` makes a
missing `wh` the empty list. -/
structure FileEntry where
  wh : List ℚ
  zones : List Zone
deriving DecidableEq

/-- One parsed JSON document: an optional `start_year` (its `str()` form)
and the page-entry list `files`. -/
structure Doc where
  start_year : Option String
  files : List FileEntry
deriving DecidableEq

/-- A character matched by Python `\w` (ASCII range). -/
def isWordChar (c : Char) : Bool :=
  c.isAlphanum || c == '_'

/-- Number of maximal `\w+` runs in a character list; the Bool records
whether we are inside a run. -/
def countTokensAux : List Char → Bool → Nat
  | [], _ => 0
  | c :: cs, inWord =>
    if isWordChar c then
      (if inWord then 0 else 1) + countTokensAux cs true
    else
      countTokensAux cs false

/-- zones_count.py lines 54-60: `len(re.findall(r"\w+", text))`. -/
def countTokens (s : String) : Nat :=
  countTokensAux s.data false

/-- The six per-page quantities of zones_count.py lines 94-115, after the
optional landscape halving. -/
structure PageCounts where
  main : ℚ
  margin : ℚ
  graphic : ℚ
  drop : ℚ
  any : ℚ
  tokens : ℚ
deriving DecidableEq

/-- zones_count.py lines 108-109: halve only when `wh` has exactly two
components and the first exceeds the second. -/
def isLandscape (wh : List ℚ) : Bool :=
  match wh with
  | [w, h] => decide (w > h)
  | _ => false

/-- zones_count.py lines 93-115: raw per-zone-type counts, full zone count
and token count of one page entry, halved (`*= 0.5`) when the page is
landscape. -/
def pageCounts (e : FileEntry) : PageCounts :=
  let main : ℚ := e.zones.countP (fun z => z.type == "MainZone")
  let margin : ℚ := e.zones.countP (fun z => z.type == "MarginTextZone")
  let graphic : ℚ := e.zones.countP (fun z => z.type == "GraphicZone")
  let drop : ℚ := e.zones.countP (fun z => z.type == "DropCapitalZone")
  let any : ℚ := e.zones.length
  let tokens : ℚ := (e.zones.map (fun z => (z.lines.map countTokens).sum)).sum
  if isLandscape e.wh then
    ⟨main * (1/2), margin * (1/2), graphic * (1/2),
     drop * (1/2), any * (1/2), tokens * (1/2)⟩
  else
    ⟨main, margin, graphic, drop, any, tokens⟩

/-- The per-document accumulators of zones_count.py lines 89-90. -/
structure DocTotals where
  filesWithMain : Nat
  filesWithMargin : Nat
  filesWithGraphic : Nat
  filesWithAny : Nat
  filesWithTokens : Nat
  totalMain : ℚ
  totalMargin : ℚ
  totalGraphic : ℚ
  totalAny : ℚ
  totalTokens : ℚ
deriving DecidableEq

/-- All accumulators start at zero. -/
def initTotals : DocTotals := ⟨0, 0, 0, 0, 0, 0, 0, 0, 0, 0⟩

/-- zones_count.py lines 117-134: one loop iteration.  The five `if`
blocks of the source all test `main_count > 0`; `total_any` receives the
sum of the four tracked type counts, not `any_count`. -/
def stepEntry (t : DocTotals) (e : FileEntry) : DocTotals :=
  let c := pageCounts e
  let t1 := if c.main > 0 then
    { t with filesWithMain := t.filesWithMain + 1,
             totalMain := t.totalMain + c.main } else t
  let t2 := if c.main > 0 then
    { t1 with filesWithMargin := t1.filesWithMargin + 1,
              totalMargin := t1.totalMargin + c.margin } else t1
  let t3 := if c.main > 0 then
    { t2 with filesWithGraphic := t2.filesWithGraphic + 1,
              totalGraphic := t2.totalGraphic + c.graphic } else t2
  let t4 := if c.main > 0 then
    { t3 with filesWithAny := t3.filesWithAny + 1,
              totalAny := t3.totalAny + (c.main + c.margin + c.graphic + c.drop) } else t3
  let t5 := if c.main > 0 then
    { t4 with filesWithTokens := t4.filesWithTokens + 1,
              totalTokens := t4.totalTokens + c.tokens } else t4
  t5

/-- The accumulators after the loop over `doc.get("files", [])`. -/
def docTotals (d : Doc) : DocTotals :=
  d.files.foldl stepEntry initTotals

/-- zones_count.py lines 136-140: `total / n if n > 0 else None`. -/
def avgOf (total : ℚ) (n : Nat) : Option ℚ :=
  if n > 0 then some (total / n) else none

/-- The tuple returned by `process_json_file`. -/
abbrev FileResult := Nat × Option ℚ × Option ℚ × Option ℚ × Option ℚ × Option ℚ

/-- zones_count.py lines 62-142.  The argument is the outcome of reading
and JSON-parsing the file: `none` is the `except` branch (lines 76-81,
error printed, `None` returned); `some doc` the parsed document. -/
def process_json_file (parsed : Option Doc) : Option FileResult :=
  match parsed with
  | none => none
  | some doc =>
    match year_to_century doc.start_year with
    | none => none
    | some century =>
      let t := docTotals doc
      some (century,
        avgOf t.totalMain t.filesWithMain,
        avgOf t.totalMargin t.filesWithMargin,
        avgOf t.totalGraphic t.filesWithGraphic,
        avgOf t.totalAny t.filesWithAny,
        avgOf t.totalTokens t.filesWithTokens)

/-- zones_count.py lines 166-174 (Step 2), `data_main`: the `(century,
avg)` pairs appended in file order; a `None` result or a `None` average
appends nothing. -/
def dataMain (rs : List (Option Doc)) : List (Nat × ℚ) :=
  rs.filterMap (fun r =>
    match process_json_file r with
    | some (c, some v, _, _, _, _) => some (c, v)
    | _ => none)

/-- zones_count.py Step 2, `data_margin`. -/
def dataMargin (rs : List (Option Doc)) : List (Nat × ℚ) :=
  rs.filterMap (fun r =>
    match process_json_file r with
    | some (c, _, some v, _, _, _) => some (c, v)
    | _ => none)

/-- zones_count.py Step 2, `data_graphic`. -/
def dataGraphic (rs : List (Option Doc)) : List (Nat × ℚ) :=
  rs.filterMap (fun r =>
    match process_json_file r with
    | some (c, _, _, some v, _, _) => some (c, v)
    | _ => none)

/-- zones_count.py Step 2, `data_total`. -/
def dataTotal (rs : List (Option Doc)) : List (Nat × ℚ) :=
  rs.filterMap (fun r =>
    match process_json_file r with
    | some (c, _, _, _, some v, _) => some (c, v)
    | _ => none)

/-- zones_count.py Step 2, `data_tokens`. -/
def dataTokens (rs : List (Option Doc)) : List (Nat × ℚ) :=
  rs.filterMap (fun r =>
    match process_json_file r with
    | some (c, _, _, _, _, some v) => some (c, v)
    | _ => none)

end LayoutChange

namespace LayoutChange

/-! ### create_types.py: overlay pipeline, STEP 1 (lines 69-123) and the
rendering formulas of STEP 2 (lines 147-181). -/

/-- One zone as create_types.py reads it; `none` fields model missing JSON
keys, resolved by the `zone.get(..., default)` calls of lines 104-106. -/
structure CtZone where
  xy : Option (List ℚ)
  wh : Option (List ℚ)
  type : Option String
deriving DecidableEq

/-- One page entry of the overlay pipeline; `wh = none` models a missing
`"wh"` key (line 94 defaults it to `[1000, 1000]`). -/
structure CtEntry where
  wh : Option (List ℚ)
  zones : List CtZone
deriving DecidableEq

/-- One parsed document of the overlay pipeline. -/
structure CtDoc where
  start_year : Option String
  files : List CtEntry
deriving DecidableEq

/-- Line 94: `file_entry.get("wh", [1000, 1000])`. -/
def pageWh (e : CtEntry) : List ℚ :=
  e.wh.getD [1000, 1000]

/-- Lines 95-96: `if len(wh_page) != 2 or wh_page[0] == 0 or wh_page[1] == 0:
continue`.  Note the test is non-zero, not strictly positive. -/
def pageSkip (e : CtEntry) : Bool :=
  match pageWh e with
  | [w, h] => w == 0 || h == 0
  | _ => true

/-- Line 99: `"landscape" if wh_page[0] > wh_page[1] else "portrait"`
(only reached when `pageWh e` has exactly two components). -/
def orientation (e : CtEntry) : String :=
  match pageWh e with
  | [w, h] => if w > h then "landscape" else "portrait"
  | _ => "portrait"

/-- A validated zone record as appended to `page_zones` (lines 110-116). -/
structure PZone where
  x : ℚ
  y : ℚ
  w : ℚ
  h : ℚ
  type : String
deriving DecidableEq

/-- Lines 102-116: keep a zone exactly when `xy` and `wh` both have two
components and both `wh` components are strictly positive; defaults are
`[0,0]`, `[0,0]` and `"Other"`. -/
def zoneRecords (e : CtEntry) : List PZone :=
  e.zones.filterMap (fun z =>
    let xy := z.xy.getD [0, 0]
    let wh := z.wh.getD [0, 0]
    let ztype := z.type.getD "Other"
    match xy, wh with
    | [x, y], [w, h] =>
      if w > 0 ∧ h > 0 then some ⟨x, y, w, h, ztype⟩ else none
    | _, _ => none)

/-- One element appended to `century_pages[century][orientation]`
(lines 119-123). -/
structure Page where
  page_wh : List ℚ
  zones : List PZone
deriving DecidableEq

/-- Lines 93-123, one page entry: `none` when the entry is skipped (bad
`wh` or empty `page_zones`), otherwise the orientation key and the page
record appended under it. -/
def entryEmit (e : CtEntry) : Option (String × Page) :=
  if pageSkip e then none
  else
    let zs := zoneRecords e
    if zs.isEmpty then none
    else some (orientation e, ⟨pageWh e, zs⟩)

/-- Lines 87-123, one document: the `(century, orientation, page)` triples
it appends, in page order; a document with an invalid year appends
nothing. -/
def docEmit (d : CtDoc) : List (Nat × String × Page) :=
  match year_to_century d.start_year with
  | none => []
  | some c =>
    d.files.filterMap (fun e => (entryEmit e).map (fun op => (c, op.1, op.2)))

/-- The final `century_pages[c][o]` list: all triples with key `(c, o)`,
in emission order.  `none` entries are files whose read/parse failed
(lines 80-85: error printed, `continue`). -/
def century_pages (rs : List (Option CtDoc)) (c : Nat) (o : String) : List Page :=
  ((rs.filterMap id).map docEmit).flatten.filterMap
    (fun t => if t.1 = c ∧ t.2.1 = o then some t.2.2 else none)

/-- Line 148: occurrences of type `t` over all zones of all pages of one
bucket/orientation group (`Counter`). -/
def typeOccurrences (pages : List Page) (t : String) : Nat :=
  ((pages.map Page.zones).flatten).countP (fun z => z.type == t)

/-- The key set of the `Counter` of line 148: the types that occur. -/
def typeTable (pages : List Page) : List String :=
  (((pages.map Page.zones).flatten).map PZone.type).dedup

/-- Line 149: `max(zone_type_counts.values()) if zone_type_counts else 1`. -/
def maxCount (pages : List Page) : Nat :=
  match typeTable pages with
  | [] => 1
  | ts => (ts.map (typeOccurrences pages)).foldr max 0

/-- Line 27: `ALPHA_MAX = 0.3`. -/
noncomputable def ALPHA_MAX : ℝ := 3 / 10

/-- Line 28: `LW_MAX = 1.0`. -/
def LW_MAX : ℝ := 1

/-- Line 29: `LW_MIN = 0.0001`. -/
noncomputable def LW_MIN : ℝ := 1 / 10000

/-- Line 32: `EXP_COEFF = 2.0`. -/
def EXP_COEFF : ℝ := 2

/-- Line 168: `alpha = ALPHA_MAX * math.exp(-EXP_COEFF * freq / max_count)`,
with the float arithmetic idealised over the reals. -/
noncomputable def zoneAlpha (freq maxc : Nat) : ℝ :=
  ALPHA_MAX * Real.exp (-EXP_COEFF * freq / maxc)

/-- Line 169: `linewidth = max(LW_MIN, LW_MAX * math.exp(-EXP_COEFF * freq
/ max_count))`. -/
noncomputable def zoneLinewidth (freq maxc : Nat) : ℝ :=
  max LW_MIN (LW_MAX * Real.exp (-EXP_COEFF * freq / maxc))

end LayoutChange

namespace LayoutChange

/-! ### Concrete example inputs used by witnesses and counterexamples. -/

/-- A zone of type MainZone with no text lines. -/
def mzZone : Zone := ⟨"MainZone", []⟩

/-- A zone of type MarginTextZone with no text lines. -/
def marginZone : Zone := ⟨"MarginTextZone", []⟩

/-- A portrait document of year 843 whose single page has four MainZones. -/
def docA : Doc := ⟨some "843", [⟨[100, 200], [mzZone, mzZone, mzZone, mzZone]⟩]⟩

/-- A landscape document of year 843 whose single page has six MainZones. -/
def docB : Doc :=
  ⟨some "843", [⟨[200, 100], [mzZone, mzZone, mzZone, mzZone, mzZone, mzZone]⟩]⟩

/-- A document of year 843 whose single page has one MarginTextZone and no
MainZone. -/
def docNoMain : Doc := ⟨some "843", [⟨[100, 200], [marginZone]⟩]⟩

/-- An overlay-pipeline zone with valid geometry and type MainZone. -/
def ctMainZone : CtZone := ⟨some [0, 0], some [10, 10], some "MainZone"⟩

/-- An overlay-pipeline document of year 843 whose single page has a
negative first `wh` component and one valid zone. -/
def ctDocNeg : CtDoc := ⟨some "843", [⟨some [-5, 100], [ctMainZone]⟩]⟩

/-- A small bucket/orientation group for the rendering-formula witness:
two MainZones and one GraphicZone on one page. -/
def pagesEx : List Page :=
  [⟨[1000, 1000],
    [⟨0, 0, 10, 10, "MainZone"⟩, ⟨1, 1, 5, 5, "MainZone"⟩,
     ⟨2, 2, 3, 3, "GraphicZone"⟩]⟩]

end LayoutChange

namespace LayoutChange

/-! ### List helper lemmas used for the `year_to_century` analysis. -/

lemma takeWhile_eq_nil_of_head (p : Char → Bool) (l : List Char)
    (h : ∀ c, l.head? = some c → p c = false) : l.takeWhile p = [] := by
  cases l with
  | nil => rfl
  | cons c cs =>
    have hc : p c = false := h c rfl
    simp [List.takeWhile, hc]

lemma dropWhile_all_append (p : Char → Bool) (l r : List Char)
    (h : ∀ c ∈ l, p c = true) : (l ++ r).dropWhile p = r.dropWhile p := by
  induction l with
  | nil => rfl
  | cons c cs ih =>
    have hc : p c = true := h c (by simp)
    simp only [List.cons_append, List.dropWhile, hc]
    exact ih (fun c hc => h c (by simp [hc]))

lemma dropWhile_append_head_false (p : Char → Bool) (a b : List Char)
    (hb : ∀ c, b.head? = some c → p c = false) :
    (a ++ b).dropWhile p = a.dropWhile p ++ b := by
  induction a with
  | nil =>
    cases b with
    | nil => rfl
    | cons c cs =>
      have hc : p c = false := hb c rfl
      simp [List.dropWhile, hc]
  | cons c cs ih =>
    cases hp : p c with
    | true => simp [List.dropWhile, hp, ih]
    | false => simp [List.dropWhile, hp]

lemma takeWhile_all_append (p : Char → Bool) (l r : List Char)
    (h : ∀ c ∈ l, p c = true) : (l ++ r).takeWhile p = l ++ r.takeWhile p := by
  induction l with
  | nil => rfl
  | cons c cs ih =>
    have hc : p c = true := h c (by simp)
    simp only [List.cons_append, List.takeWhile, hc]
    rw [show cs.append r = cs ++ r from rfl, ih (fun c hc => h c (by simp [hc]))]

lemma exists_append_dropWhile (p : Char → Bool) (l : List Char) :
    ∃ t, t ++ l.dropWhile p = l := by
  induction l with
  | nil => exact ⟨[], rfl⟩
  | cons c cs ih =>
    cases hp : p c with
    | true =>
      obtain ⟨t, ht⟩ := ih
      exact ⟨c :: t, by simp [List.dropWhile, hp, ht]⟩
    | false => exact ⟨[], by simp [List.dropWhile, hp]⟩

lemma digit_not_whitespace (c : Char) (h : c.isDigit = true) :
    c.isWhitespace = false := by
  have h0 : ('0' : Char) ≤ c := by
    have := (Bool.and_eq_true _ _).mp h
    exact decide_eq_true_eq.mp this.1
  have h48 : 48 ≤ c.val := h0
  by_contra hw
  have hw' : c.isWhitespace = true := by
    cases hws : c.isWhitespace with
    | true => rfl
    | false => exact absurd hws hw
  have : ((c = ' ' ∨ c = '\t') ∨ c = '\r') ∨ c = '\n' := by
    simpa [Char.isWhitespace] using hw'
  rcases this with ((h | h) | h) | h <;> subst h <;> exact absurd h48 (by decide)

/-- The stripped form of whitespace, then digits `ds`, then a rest that does
not begin with a digit, has leading digit run exactly `ds`. -/
lemma takeWhile_digits_pyStrip (pre ds rest : List Char)
    (hpre : ∀ c ∈ pre, c.isWhitespace = true)
    (hne : ds ≠ []) (hds : ∀ c ∈ ds, c.isDigit = true)
    (hrest : ∀ c, rest.head? = some c → c.isDigit = false) :
    (pyStrip (pre ++ ds ++ rest)).takeWhile Char.isDigit = ds := by
  unfold pyStrip
  have hdnotw : ∀ c ∈ ds, c.isWhitespace = false :=
    fun c hc => digit_not_whitespace c (hds c hc)
  -- first strip: the whitespace prefix goes, then the head of `ds` stops it
  have h1 : ((pre ++ ds ++ rest).dropWhile Char.isWhitespace) = ds ++ rest := by
    rw [List.append_assoc, dropWhile_all_append _ _ _ hpre]
    cases ds with
    | nil => exact absurd rfl hne
    | cons d ds' =>
      have hd : d.isWhitespace = false := hdnotw d (by simp)
      simp [List.dropWhile, hd]
  rw [h1, List.reverse_append]
  -- second strip works on `rest.reverse ++ ds.reverse`; the digits block it
  have h2 : (rest.reverse ++ ds.reverse).dropWhile Char.isWhitespace
      = rest.reverse.dropWhile Char.isWhitespace ++ ds.reverse := by
    apply dropWhile_append_head_false
    intro c hc
    cases hdr : ds.reverse with
    | nil =>
      exact absurd (List.reverse_eq_nil_iff.mp hdr) hne
    | cons d ds' =>
      rw [hdr] at hc
      have hd : d ∈ ds := by
        have : d ∈ ds.reverse := by rw [hdr]; simp
        exact List.mem_reverse.mp this
      have : d = c := by simpa using hc
      rw [← this]
      exact hdnotw d hd
  rw [h2, List.reverse_append, List.reverse_reverse]
  -- the trailing-stripped rest is a prefix of `rest`, so its head (if any)
  -- is `rest`'s head, which is not a digit
  obtain ⟨t, ht⟩ := exists_append_dropWhile Char.isWhitespace rest.reverse
  set X := rest.reverse.dropWhile Char.isWhitespace with hX
  have hXpre : X.reverse ++ t.reverse = rest := by
    have := congrArg List.reverse ht
    simpa using this
  have hhead : ∀ c, X.reverse.head? = some c → c.isDigit = false := by
    intro c hc
    cases hXr : X.reverse with
    | nil => rw [hXr] at hc; exact absurd hc (by simp)
    | cons x xs =>
      rw [hXr] at hc
      have hcx : x = c := by simpa using hc
      have : rest.head? = some x := by
        rw [← hXpre, hXr]; rfl
      rw [← hcx]
      exact hrest x this
  rw [takeWhile_all_append _ _ _ hds, takeWhile_eq_nil_of_head _ _ hhead,
    List.append_nil]

end LayoutChange

namespace LayoutChange

/-! ### Supporting lemmas shared by several claims. -/

/-- `leadingDigits` on a list whose digit run is the non-empty `ds`. -/
lemma leadingDigits_eq_some (l ds : List Char)
    (h : l.takeWhile Char.isDigit = ds) (hne : ds ≠ []) :
    leadingDigits l = some ds := by
  unfold leadingDigits
  rw [h]
  cases ds with
  | nil => exact absurd rfl hne
  | cons d ds' => rfl

/-- `leadingDigits` is `none` when the list does not start with a digit. -/
lemma leadingDigits_eq_none (l : List Char)
    (h : ∀ c, l.head? = some c → c.isDigit = false) :
    leadingDigits l = none := by
  unfold leadingDigits
  rw [takeWhile_eq_nil_of_head _ _ h]

/-- Unfolding of `year_to_century` on a present raw value. -/
lemma year_to_century_some (s : String) :
    year_to_century (some s)
      = (match leadingDigits (pyStrip s.data) with
         | none => none
         | some ds =>
           if natOfDigits ds < 100 then some (natOfDigits ds + 1)
           else some (natOfDigits ds / 100 + 1)) := rfl

/-- Unfolding of `process_json_file` on a successfully parsed document. -/
lemma process_json_file_some (d : Doc) :
    process_json_file (some d)
      = (match year_to_century d.start_year with
         | none => none
         | some century =>
           some (century,
             avgOf (docTotals d).totalMain (docTotals d).filesWithMain,
             avgOf (docTotals d).totalMargin (docTotals d).filesWithMargin,
             avgOf (docTotals d).totalGraphic (docTotals d).filesWithGraphic,
             avgOf (docTotals d).totalAny (docTotals d).filesWithAny,
             avgOf (docTotals d).totalTokens (docTotals d).filesWithTokens)) := rfl

end LayoutChange

namespace LayoutChange

/-! ### Claim C2: year-to-bucket conversion. -/

/-- Claim C2, counterexample: the raw value `" 843"` does not begin with a
digit, yet `year_to_century` yields century 9 rather than `None`, because
the source strips whitespace before matching. -/
theorem C2_counterexample :
    beginsWithDigit " 843" = false ∧ year_to_century (some " 843") = some 9 := by
  decide

/-- Claim C2 (amended): for every raw `start_year` input `y`, if the
whitespace-stripped form of `str(y)` begins with a run of decimal digits of
value `d`, the bucket is `d+1` when `d < 100` and `d / 100 + 1` otherwise;
if `y` is absent, or the stripped string does not begin with a digit, the
result is `None` and the document is skipped. -/
theorem C2_year_to_century (pre ds rest : List Char) (s : String)
    (hpre : ∀ c ∈ pre, c.isWhitespace = true)
    (hne : ds ≠ []) (hds : ∀ c ∈ ds, c.isDigit = true)
    (hrest : ∀ c, rest.head? = some c → c.isDigit = false)
    (hs : s.data = pre ++ ds ++ rest) :
    year_to_century (some s)
      = (if natOfDigits ds < 100 then some (natOfDigits ds + 1)
         else some (natOfDigits ds / 100 + 1)) ∧
    year_to_century none = none ∧
    (∀ s' : String, (∀ c, (pyStrip s'.data).head? = some c → c.isDigit = false) →
      year_to_century (some s') = none) := by
  refine ⟨?_, rfl, ?_⟩
  · rw [year_to_century_some, hs, leadingDigits_eq_some _ ds
      (takeWhile_digits_pyStrip pre ds rest hpre hne hds hrest) hne]
  · intro s' h
    rw [year_to_century_some, leadingDigits_eq_none _ h]

/-- Claim C2, witness: `" 12th"` (leading space, then digits `12`) buckets
to 13, and an absent year is skipped. -/
theorem C2_witness :
    year_to_century (some " 12th") = some 13 ∧ year_to_century none = none := by
  have h := C2_year_to_century [' '] ['1', '2'] ['t', 'h'] " 12th"
    (by decide) (by decide) (by decide) (by decide) (by decide)
  refine ⟨?_, h.2.1⟩
  have h1 := h.1
  norm_num [natOfDigits] at h1
  exact h1

end LayoutChange

namespace LayoutChange

/-! ### Claim C1: what the trend pipeline hands to smoothing. -/

/-- Claim C1, counterexample: two documents contributing MainZone counts 4
and (landscape-halved) 3 to century 9 hand the smoothing step two data
points `(9, 4)` and `(9, 3)` — one per document — not one point with the
combined per-bucket mean `3.5`. -/
theorem C1_counterexample :
    dataMain [some docA, some docB] = [(9, 4), (9, 3)] ∧
    (dataMain [some docA, some docB]).length = 2 := by
  have hy : year_to_century (some "843") = some 9 := by decide
  have hA : process_json_file (some docA)
      = some (9, some 4, some 0, some 0, some 4, some 0) := by
    simp [process_json_file, hy, docTotals, docA, stepEntry, pageCounts,
      initTotals, isLandscape, mzZone, avgOf]
    norm_num
  have hB : process_json_file (some docB)
      = some (9, some 3, some 0, some 0, some 3, some 0) := by
    simp [process_json_file, hy, docTotals, docB, stepEntry, pageCounts,
      initTotals, isLandscape, mzZone, avgOf]
    norm_num
  refine ⟨?_, ?_⟩
  · simp [dataMain, hA, hB]
  · simp [dataMain, hA, hB]

/-- Claim C1 (amended): the value handed to smoothing is one data point per
contributing document per metric, not one per bucket: a document whose
`files_with_main` count is positive contributes to `data_main` exactly the
pair of its century and its own per-document mean `total_main /
files_with_main`, placed at the document's position; a bucket several
documents map to therefore receives several data points. -/
theorem C1_per_document_mean (rs ss : List (Option Doc)) (d : Doc) (c : Nat)
    (hc : year_to_century d.start_year = some c)
    (hm : 0 < (docTotals d).filesWithMain) :
    dataMain (rs ++ some d :: ss)
      = dataMain rs
        ++ (c, (docTotals d).totalMain / ((docTotals d).filesWithMain : ℚ))
           :: dataMain ss := by
  have hp : process_json_file (some d)
      = some (c,
          some ((docTotals d).totalMain / ((docTotals d).filesWithMain : ℚ)),
          avgOf (docTotals d).totalMargin (docTotals d).filesWithMargin,
          avgOf (docTotals d).totalGraphic (docTotals d).filesWithGraphic,
          avgOf (docTotals d).totalAny (docTotals d).filesWithAny,
          avgOf (docTotals d).totalTokens (docTotals d).filesWithTokens) := by
    rw [process_json_file_some, hc]
    simp [avgOf, hm]
  unfold dataMain
  rw [List.filterMap_append, List.filterMap_cons, hp]

/-- Claim C1, witness: the single contributing document `docA` (century 9,
one page with four MainZones) yields exactly the data point `(9, 4/1)`. -/
theorem C1_witness :
    dataMain [some docA]
      = [(9, (docTotals docA).totalMain / ((docTotals docA).filesWithMain : ℚ))] := by
  have h := C1_per_document_mean [] [] docA 9 (by decide) (by decide)
  simpa using h

end LayoutChange

namespace LayoutChange

/-! ### Claim C3: landscape halving. -/

/-- Claim C3: a page entry whose two-component `wh` has width > height
contributes, for every metric (MainZone, MarginTextZone, GraphicZone,
DropCapitalZone, total tracked zones, full zone count and token count),
exactly half the value of an otherwise-identical page with width ≤ height,
and the halving does not change whether the page passes the `main_count >
0` contribution gate. -/
theorem C3_landscape_halving (zs : List Zone) (w h w' h' : ℚ)
    (hland : w > h) (hport : ¬ w' > h') :
    (pageCounts ⟨[w, h], zs⟩).main = (pageCounts ⟨[w', h'], zs⟩).main / 2 ∧
    (pageCounts ⟨[w, h], zs⟩).margin = (pageCounts ⟨[w', h'], zs⟩).margin / 2 ∧
    (pageCounts ⟨[w, h], zs⟩).graphic = (pageCounts ⟨[w', h'], zs⟩).graphic / 2 ∧
    (pageCounts ⟨[w, h], zs⟩).drop = (pageCounts ⟨[w', h'], zs⟩).drop / 2 ∧
    ((pageCounts ⟨[w, h], zs⟩).main + (pageCounts ⟨[w, h], zs⟩).margin
      + (pageCounts ⟨[w, h], zs⟩).graphic + (pageCounts ⟨[w, h], zs⟩).drop)
      = ((pageCounts ⟨[w', h'], zs⟩).main + (pageCounts ⟨[w', h'], zs⟩).margin
        + (pageCounts ⟨[w', h'], zs⟩).graphic + (pageCounts ⟨[w', h'], zs⟩).drop) / 2 ∧
    (pageCounts ⟨[w, h], zs⟩).any = (pageCounts ⟨[w', h'], zs⟩).any / 2 ∧
    (pageCounts ⟨[w, h], zs⟩).tokens = (pageCounts ⟨[w', h'], zs⟩).tokens / 2 ∧
    ((pageCounts ⟨[w, h], zs⟩).main > 0 ↔ (pageCounts ⟨[w', h'], zs⟩).main > 0) := by
  have hL : isLandscape [w, h] = true := by simp [isLandscape, hland]
  have hP : isLandscape [w', h'] = false := by simp [isLandscape, hport]
  refine ⟨?_, ?_, ?_, ?_, ?_, ?_, ?_, ?_⟩ <;>
    simp [pageCounts, hL, hP] <;> ring

end LayoutChange

namespace LayoutChange

/-- Claim C3, witness: a landscape page `[200, 100]` with four MainZones
contributes half of what the portrait page `[100, 200]` with the same
zones does, and both pass the contribution gate. -/
theorem C3_witness :
    (pageCounts ⟨[200, 100], [mzZone, mzZone, mzZone, mzZone]⟩).main
      = (pageCounts ⟨[100, 200], [mzZone, mzZone, mzZone, mzZone]⟩).main / 2 ∧
    ((pageCounts ⟨[200, 100], [mzZone, mzZone, mzZone, mzZone]⟩).main > 0
      ↔ (pageCounts ⟨[100, 200], [mzZone, mzZone, mzZone, mzZone]⟩).main > 0) := by
  have h := C3_landscape_halving [mzZone, mzZone, mzZone, mzZone]
    200 100 100 200 (by norm_num) (by norm_num)
  exact ⟨h.1, h.2.2.2.2.2.2.2⟩

end LayoutChange

namespace LayoutChange

/-- The five `if` blocks of zones_count.py lines 117-134 share the test
`main_count > 0`, so one loop iteration either increments all five counters
and all five totals, or leaves the accumulator untouched. -/
lemma stepEntry_eq (t : DocTotals) (e : FileEntry) :
    stepEntry t e
      = if (pageCounts e).main > 0 then
          ⟨t.filesWithMain + 1, t.filesWithMargin + 1, t.filesWithGraphic + 1,
           t.filesWithAny + 1, t.filesWithTokens + 1,
           t.totalMain + (pageCounts e).main,
           t.totalMargin + (pageCounts e).margin,
           t.totalGraphic + (pageCounts e).graphic,
           t.totalAny + ((pageCounts e).main + (pageCounts e).margin
             + (pageCounts e).graphic + (pageCounts e).drop),
           t.totalTokens + (pageCounts e).tokens⟩
        else t := by
  by_cases hc : (pageCounts e).main > 0 <;> simp [stepEntry, hc]

/-- Along the fold, the five counters stay equal to each other. -/
lemma foldl_counters_eq (l : List FileEntry) (t : DocTotals)
    (h : t.filesWithMargin = t.filesWithMain ∧ t.filesWithGraphic = t.filesWithMain
      ∧ t.filesWithAny = t.filesWithMain ∧ t.filesWithTokens = t.filesWithMain) :
    (l.foldl stepEntry t).filesWithMargin = (l.foldl stepEntry t).filesWithMain
    ∧ (l.foldl stepEntry t).filesWithGraphic = (l.foldl stepEntry t).filesWithMain
    ∧ (l.foldl stepEntry t).filesWithAny = (l.foldl stepEntry t).filesWithMain
    ∧ (l.foldl stepEntry t).filesWithTokens = (l.foldl stepEntry t).filesWithMain := by
  induction l generalizing t with
  | nil => exact h
  | cons e l ih =>
    refine ih (stepEntry t e) ?_
    rw [stepEntry_eq]
    by_cases hc : (pageCounts e).main > 0 <;> simp [hc, h.1, h.2.1, h.2.2.1, h.2.2.2]

end LayoutChange

namespace LayoutChange

/-! ### Claim C9: the five averages are all-or-nothing. -/

/-- Claim C9: for every document, the five per-document denominators are
equal (each `if` block of the loop is gated on the identical condition
`main_count > 0`), so the five averages are either all present or all
`None`. -/
theorem C9_all_or_nothing (d : Doc) :
    ((docTotals d).filesWithMargin = (docTotals d).filesWithMain
      ∧ (docTotals d).filesWithGraphic = (docTotals d).filesWithMain
      ∧ (docTotals d).filesWithAny = (docTotals d).filesWithMain
      ∧ (docTotals d).filesWithTokens = (docTotals d).filesWithMain) ∧
    ((avgOf (docTotals d).totalMargin (docTotals d).filesWithMargin).isSome
        = (avgOf (docTotals d).totalMain (docTotals d).filesWithMain).isSome
      ∧ (avgOf (docTotals d).totalGraphic (docTotals d).filesWithGraphic).isSome
        = (avgOf (docTotals d).totalMain (docTotals d).filesWithMain).isSome
      ∧ (avgOf (docTotals d).totalAny (docTotals d).filesWithAny).isSome
        = (avgOf (docTotals d).totalMain (docTotals d).filesWithMain).isSome
      ∧ (avgOf (docTotals d).totalTokens (docTotals d).filesWithTokens).isSome
        = (avgOf (docTotals d).totalMain (docTotals d).filesWithMain).isSome) := by
  have h := foldl_counters_eq d.files initTotals (by simp [initTotals])
  have hd : docTotals d = d.files.foldl stepEntry initTotals := rfl
  rw [← hd] at h
  refine ⟨h, ?_, ?_, ?_, ?_⟩ <;>
    simp only [avgOf, h.1, h.2.1, h.2.2.1, h.2.2.2] <;>
    by_cases hp : (docTotals d).filesWithMain > 0 <;> simp [hp]

end LayoutChange

namespace LayoutChange

/-! ### Claim C10: the "total zones" metric counts only the four tracked
types. -/

/-- Claim C10: appending a zone of any untracked type to a page leaves the
aggregated "total zones" contribution (and its denominator) unchanged,
even though the page's full zone count `any_count` does see the zone (and
is halved on landscape pages); `any_count` itself is never aggregated —
`DocTotals` mirrors the source in having no field for it. -/
theorem C10_total_tracked_only (wh : List ℚ) (zs : List Zone) (z : Zone)
    (t : DocTotals)
    (hz : z.type ≠ "MainZone" ∧ z.type ≠ "MarginTextZone"
      ∧ z.type ≠ "GraphicZone" ∧ z.type ≠ "DropCapitalZone") :
    (stepEntry t ⟨wh, zs ++ [z]⟩).totalAny = (stepEntry t ⟨wh, zs⟩).totalAny ∧
    (stepEntry t ⟨wh, zs ++ [z]⟩).filesWithAny
      = (stepEntry t ⟨wh, zs⟩).filesWithAny ∧
    (pageCounts ⟨wh, zs ++ [z]⟩).any
      = (pageCounts ⟨wh, zs⟩).any + (if isLandscape wh then 1/2 else 1) := by
  have hcnt : ∀ s : String, z.type ≠ s →
      (zs ++ [z]).countP (fun z' => z'.type == s)
        = zs.countP (fun z' => z'.type == s) := by
    intro s hs
    simp [List.countP_append, List.countP_cons, hs]
  have hmain := hcnt "MainZone" hz.1
  have hmargin := hcnt "MarginTextZone" hz.2.1
  have hgraphic := hcnt "GraphicZone" hz.2.2.1
  have hdrop := hcnt "DropCapitalZone" hz.2.2.2
  have hpmain : (pageCounts ⟨wh, zs ++ [z]⟩).main = (pageCounts ⟨wh, zs⟩).main := by
    by_cases hl : isLandscape wh <;> simp [pageCounts, hl, hmain]
  have hpmargin : (pageCounts ⟨wh, zs ++ [z]⟩).margin = (pageCounts ⟨wh, zs⟩).margin := by
    by_cases hl : isLandscape wh <;> simp [pageCounts, hl, hmargin]
  have hpgraphic : (pageCounts ⟨wh, zs ++ [z]⟩).graphic = (pageCounts ⟨wh, zs⟩).graphic := by
    by_cases hl : isLandscape wh <;> simp [pageCounts, hl, hgraphic]
  have hpdrop : (pageCounts ⟨wh, zs ++ [z]⟩).drop = (pageCounts ⟨wh, zs⟩).drop := by
    by_cases hl : isLandscape wh <;> simp [pageCounts, hl, hdrop]
  refine ⟨?_, ?_, ?_⟩
  · rw [stepEntry_eq, stepEntry_eq, hpmain, hpmargin, hpgraphic, hpdrop]
    by_cases hc : (pageCounts ⟨wh, zs⟩).main > 0 <;> simp [hc]
  · rw [stepEntry_eq, stepEntry_eq, hpmain]
    by_cases hc : (pageCounts ⟨wh, zs⟩).main > 0 <;> simp [hc]
  · by_cases hl : isLandscape wh
    · simp [pageCounts, hl]; ring
    · simp [pageCounts, hl]

/-- Claim C10, witness: a portrait page with one MainZone plus one zone of
the untracked type `CustomZone` aggregates the same total as without it,
while its full zone count grows by one. -/
theorem C10_witness :
    (stepEntry initTotals ⟨[100, 200], [mzZone, ⟨"CustomZone", []⟩]⟩).totalAny
      = (stepEntry initTotals ⟨[100, 200], [mzZone]⟩).totalAny ∧
    (pageCounts ⟨[100, 200], [mzZone, ⟨"CustomZone", []⟩]⟩).any
      = (pageCounts ⟨[100, 200], [mzZone]⟩).any
        + (if isLandscape [100, 200] then 1/2 else 1) := by
  have h := C10_total_tracked_only [100, 200] [mzZone] ⟨"CustomZone", []⟩
    initTotals (by refine ⟨?_, ?_, ?_, ?_⟩ <;> decide)
  exact ⟨h.1, h.2.2⟩

end LayoutChange

namespace LayoutChange

/-- A page with no MainZone zone has `main_count = 0` (halving included). -/
lemma pageCounts_main_zero (e : FileEntry)
    (hz : ∀ z ∈ e.zones, z.type ≠ "MainZone") :
    (pageCounts e).main = 0 := by
  have h0 : e.zones.countP (fun z => z.type == "MainZone") = 0 := by
    rw [List.countP_eq_zero]
    intro a ha
    simpa using hz a ha
  by_cases hl : isLandscape e.wh <;> simp [pageCounts, hl, h0]

/-- A page with no MainZone zone leaves the accumulator untouched. -/
lemma stepEntry_id (t : DocTotals) (e : FileEntry)
    (hz : ∀ z ∈ e.zones, z.type ≠ "MainZone") :
    stepEntry t e = t := by
  rw [stepEntry_eq, pageCounts_main_zero e hz]
  simp

/-- A fold over MainZone-free pages is the identity. -/
lemma foldl_stepEntry_id (l : List FileEntry) (t : DocTotals)
    (hl : ∀ e ∈ l, ∀ z ∈ e.zones, z.type ≠ "MainZone") :
    l.foldl stepEntry t = t := by
  induction l generalizing t with
  | nil => rfl
  | cons a l ih =>
    rw [List.foldl_cons, stepEntry_id t a (hl a (by simp))]
    exact ih t (fun e he => hl e (by simp [he]))

end LayoutChange

namespace LayoutChange

/-! ### Claim C4: only MainZone-containing pages contribute. -/

/-- Claim C4: a page entry without a MainZone zone contributes to no
metric's numerator or denominator; a document none of whose pages contain
a MainZone gets `None` for all five averages and appends no data point to
any of the five series. -/
theorem C4_mainzone_gate (d : Doc) (e : FileEntry) (t : DocTotals)
    (rs ss : List (Option Doc))
    (he : ∀ z ∈ e.zones, z.type ≠ "MainZone")
    (hd : ∀ e' ∈ d.files, ∀ z ∈ e'.zones, z.type ≠ "MainZone") :
    stepEntry t e = t ∧
    process_json_file (some d)
      = (year_to_century d.start_year).map
          (fun c => (c, none, none, none, none, none)) ∧
    dataMain (rs ++ some d :: ss) = dataMain (rs ++ ss) ∧
    dataMargin (rs ++ some d :: ss) = dataMargin (rs ++ ss) ∧
    dataGraphic (rs ++ some d :: ss) = dataGraphic (rs ++ ss) ∧
    dataTotal (rs ++ some d :: ss) = dataTotal (rs ++ ss) ∧
    dataTokens (rs ++ some d :: ss) = dataTokens (rs ++ ss) := by
  have hdoc : docTotals d = initTotals := foldl_stepEntry_id d.files initTotals hd
  have hp : process_json_file (some d)
      = (year_to_century d.start_year).map
          (fun c => (c, none, none, none, none, none)) := by
    rw [process_json_file_some]
    cases hy : year_to_century d.start_year with
    | none => rfl
    | some c => simp [hdoc, initTotals, avgOf]
  refine ⟨stepEntry_id t e he, hp, ?_, ?_, ?_, ?_, ?_⟩ <;>
    cases hy : year_to_century d.start_year <;>
    rw [hy] at hp <;>
    simp [dataMain, dataMargin, dataGraphic, dataTotal, dataTokens,
      List.filterMap_append, List.filterMap_cons, hp]

/-- Claim C4, witness: a document whose only page has a single
MarginTextZone contributes nothing anywhere. -/
theorem C4_witness :
    stepEntry initTotals ⟨[100, 200], [marginZone]⟩ = initTotals ∧
    process_json_file (some docNoMain) = some (9, none, none, none, none, none) ∧
    dataMain [some docNoMain] = dataMain [] := by
  have h := C4_mainzone_gate docNoMain ⟨[100, 200], [marginZone]⟩ initTotals
    [] [] (by decide) (by decide)
  refine ⟨h.1, ?_, ?_⟩
  · rw [h.2.1, show year_to_century docNoMain.start_year = some 9 from by decide]
    rfl
  · simpa using h.2.2.1

end LayoutChange

namespace LayoutChange

/-! ### Claim C7: a file whose read or parse fails contributes nothing. -/

/-- Claim C7: in both pipelines a file whose read/parse fails (a `none`
parse outcome) yields no contribution, and the aggregates computed from
the remaining files are exactly those computed without the failing file —
wherever in the sequence the failure occurs, it never alters state
accumulated from other files.  (The accompanying log line is an I/O side
effect outside the state model.) -/
theorem C7_parse_failure_isolated (rs ss : List (Option Doc))
    (crs css : List (Option CtDoc)) (c : Nat) (o : String) :
    process_json_file none = none ∧
    dataMain (rs ++ none :: ss) = dataMain (rs ++ ss) ∧
    dataMargin (rs ++ none :: ss) = dataMargin (rs ++ ss) ∧
    dataGraphic (rs ++ none :: ss) = dataGraphic (rs ++ ss) ∧
    dataTotal (rs ++ none :: ss) = dataTotal (rs ++ ss) ∧
    dataTokens (rs ++ none :: ss) = dataTokens (rs ++ ss) ∧
    century_pages (crs ++ none :: css) c o = century_pages (crs ++ css) c o := by
  refine ⟨rfl, ?_, ?_, ?_, ?_, ?_, ?_⟩ <;>
    simp [dataMain, dataMargin, dataGraphic, dataTotal, dataTokens,
      century_pages, List.filterMap_append, List.filterMap_cons,
      process_json_file]

end LayoutChange

namespace LayoutChange

/-! ### Claim C5: page validity in the overlay pipeline. -/

/-- Claim C5, counterexample: a page whose `wh` is `[-5, 100]` — a negative
first component — is NOT skipped: the page check of create_types.py line 95
only rejects zero components, so the page is classified portrait and its
valid zone reaches the century-9 portrait group. -/
theorem C5_counterexample :
    century_pages [some ctDocNeg] 9 "portrait"
      = [⟨[-5, 100], [⟨0, 0, 10, 10, "MainZone"⟩]⟩] ∧
    (-5 : ℚ) < 0 := by
  refine ⟨by decide, by norm_num⟩

/-- Claim C5 (amended): a page entry is skipped iff its width/height pair
fails to have exactly two NON-ZERO components (or yields no valid zone);
strict positivity is not required, so negative components pass the page
check.  (Zones, by contrast, do require strictly positive `wh` at line
109.) -/
theorem C5_page_validity (e : CtEntry) :
    (pageSkip e = false ↔ ∃ w h : ℚ, pageWh e = [w, h] ∧ w ≠ 0 ∧ h ≠ 0) ∧
    (pageSkip e = true → entryEmit e = none) ∧
    (entryEmit e = none ↔ pageSkip e = true ∨ zoneRecords e = []) := by
  refine ⟨?_, ?_, ?_⟩
  · rcases hw : pageWh e with _ | ⟨w, _ | ⟨h, _ | ⟨x, tl⟩⟩⟩ <;>
      simp [pageSkip, hw]
    exact ⟨fun hx => ⟨w, h, ⟨rfl, rfl⟩, hx⟩,
      fun ⟨w', h', ⟨hw', hh'⟩, hx⟩ => by rw [hw', hh']; exact hx⟩
  · intro hs
    simp [entryEmit, hs]
  · by_cases hsk : pageSkip e
    · simp [entryEmit, hsk]
    · rcases hz : zoneRecords e with _ | ⟨p, ps⟩ <;>
        simp [entryEmit, hsk, hz]

/-- Claim C5, witness: the page with `wh = [-5, 100]` passes the check
(non-zero components), while a page with a zero width is skipped and
emits nothing. -/
theorem C5_witness :
    pageSkip ⟨some [(-5 : ℚ), 100], [ctMainZone]⟩ = false ∧
    entryEmit ⟨some [(0 : ℚ), 100], [ctMainZone]⟩ = none := by
  constructor
  · exact (C5_page_validity _).1.mpr ⟨-5, 100, rfl, by norm_num, by norm_num⟩
  · exact (C5_page_validity _).2.1 (by decide)

end LayoutChange

namespace LayoutChange

/-! ### Claim C8: a page with no `wh` field. -/

/-- Claim C8: a page entry without a `"wh"` key is not skipped: it gets the
default size `[1000, 1000]`, and since width equals height it is classified
"portrait", so its valid zones are appended to the portrait group with the
default page size. -/
theorem C8_missing_wh_default (zs : List CtZone)
    (hz : zoneRecords ⟨none, zs⟩ ≠ []) :
    pageWh ⟨none, zs⟩ = [1000, 1000] ∧
    pageSkip ⟨none, zs⟩ = false ∧
    orientation ⟨none, zs⟩ = "portrait" ∧
    entryEmit ⟨none, zs⟩
      = some ("portrait", ⟨[1000, 1000], zoneRecords ⟨none, zs⟩⟩) := by
  have hwh : pageWh ⟨none, zs⟩ = [1000, 1000] := rfl
  have hsk : pageSkip ⟨none, zs⟩ = false := by
    simp [pageSkip, hwh]
  have hor : orientation ⟨none, zs⟩ = "portrait" := by
    simp [orientation, hwh]
  refine ⟨hwh, hsk, hor, ?_⟩
  rcases hrec : zoneRecords ⟨none, zs⟩ with _ | ⟨p, ps⟩
  · exact absurd hrec hz
  · simp [entryEmit, hsk, hrec, hor, hwh]

/-- Claim C8, witness: a page entry with no `wh` and one valid MainZone
lands in the portrait group at the default `[1000, 1000]` scale. -/
theorem C8_witness :
    entryEmit ⟨none, [ctMainZone]⟩
      = some ("portrait", ⟨[1000, 1000], zoneRecords ⟨none, [ctMainZone]⟩⟩) :=
  (C8_missing_wh_default [ctMainZone] (by decide)).2.2.2

end LayoutChange

namespace LayoutChange

/-- A type listed in the frequency table occurs at least once. -/
lemma typeOccurrences_pos_of_mem (pages : List Page) (t : String)
    (h : t ∈ typeTable pages) : 0 < typeOccurrences pages t := by
  unfold typeTable at h
  rw [List.mem_dedup] at h
  obtain ⟨z, hz, hzt⟩ := List.mem_map.mp h
  unfold typeOccurrences
  rw [List.countP_pos_iff]
  exact ⟨z, hz, by simp [hzt]⟩

/-- `max_count` is always at least 1 (it defaults to 1 on an empty
counter, and every counted value is positive). -/
lemma maxCount_pos (pages : List Page) : 0 < maxCount pages := by
  unfold maxCount
  cases h : typeTable pages with
  | nil => norm_num
  | cons t ts =>
    have ht : t ∈ typeTable pages := by rw [h]; simp
    have h1 := typeOccurrences_pos_of_mem pages t ht
    simp only [List.map_cons, List.foldr_cons]
    exact lt_of_lt_of_le h1 (le_max_left _ _)

end LayoutChange

namespace LayoutChange

/-! ### Claim C6: overlay rendering attributes. -/

/-- Claim C6: a zone whose type occurs at the group's maximum frequency is
drawn with opacity `ALPHA_MAX * exp(-k)` and outline width
`max(LW_MIN, LW_MAX * exp(-k))` (with `k = EXP_COEFF`), by the formulas
`alpha = ALPHA_MAX * exp(-k * freq/max_freq)` and `linewidth = max(LW_MIN,
LW_MAX * exp(-k * freq/max_freq))`; a zone type with zero occurrences
never appears in the frequency table. -/
theorem C6_decay_formulas (pages : List Page) (t u : String)
    (hmax : typeOccurrences pages t = maxCount pages)
    (hzero : typeOccurrences pages u = 0) :
    zoneAlpha (typeOccurrences pages t) (maxCount pages)
      = ALPHA_MAX * Real.exp (-EXP_COEFF) ∧
    zoneLinewidth (typeOccurrences pages t) (maxCount pages)
      = max LW_MIN (LW_MAX * Real.exp (-EXP_COEFF)) ∧
    u ∉ typeTable pages := by
  have hm : (0 : ℝ) < (maxCount pages : ℝ) := by
    exact_mod_cast maxCount_pos pages
  have harg : -EXP_COEFF * (typeOccurrences pages t : ℝ) / (maxCount pages : ℝ)
      = -EXP_COEFF := by
    rw [hmax, mul_div_assoc, div_self hm.ne', mul_one]
  refine ⟨?_, ?_, ?_⟩
  · unfold zoneAlpha
    rw [harg]
  · unfold zoneLinewidth
    rw [harg]
  · intro hmem
    have := typeOccurrences_pos_of_mem pages u hmem
    omega

/-- Claim C6, witness: in a group whose one page holds two MainZones and a
GraphicZone, MainZone attains the maximum frequency and renders at
`ALPHA_MAX * exp(-EXP_COEFF)`, while the absent type `GhostZone` is not in
the table. -/
theorem C6_witness :
    zoneAlpha (typeOccurrences pagesEx "MainZone") (maxCount pagesEx)
      = ALPHA_MAX * Real.exp (-EXP_COEFF) ∧
    "GhostZone" ∉ typeTable pagesEx := by
  have h := C6_decay_formulas pagesEx "MainZone" "GhostZone"
    (by decide) (by decide)
  exact ⟨h.1, h.2.2⟩

end LayoutChange
